import Mathlib

/-!
Shallow embedding of `scholarship_tracker.py` (muskan258/Scholarship-Tracker)
and proofs about its deduplication-and-delivery tracking core.

The Python program keeps a SQLite table `scholarships` keyed by an id that is
the MD5 hex digest of the concatenation `title + source`.  The operations
embedded here are `Database.add_scholarship` (SQLite `INSERT OR REPLACE`,
without the `sent_in_email` column in the column list), `Database.mark_as_sent`
(an `UPDATE ... WHERE id = ?` per id), `Database.get_unsent_scholarships`
(`SELECT ... WHERE sent_in_email = FALSE AND timestamp > datetime(now, -7 days)`),
the module-level configuration checks, `validate_email_config`, the
exception handlers of `fetch_scholarship_data`, `fetch_buddy4study_scholarships`
and `process_with_gemini`, and the send decision of `main`.

Rows are modelled as a `List Row`; SQLite row order is unspecified, so all
properties proved are order-insensitive or quantify over positions.
Timestamps are modelled as the TEXT they really are in the database: the
column stores `datetime.now().isoformat()` — a local-time string with a `T`
separator — while `datetime(now, -7 days)` produces a UTC string in the
form `YYYY-MM-DD HH:MM:SS` with a space separator. The ISO string is not a
numeric literal, so despite the DATETIME (NUMERIC affinity) column it is
stored as TEXT, and the WHERE comparison is SQLite BINARY collation: a
memcmp of the UTF-8 bytes, with the shorter string sorting first on a tie.
That comparison is embedded exactly (`bytesLt` over `strBytes`); the two
operands come from different clocks (local vs UTC), which the embedding
keeps visible by taking the evaluated cutoff string as a parameter.
-/

set_option autoImplicit false
set_option maxRecDepth 10000

namespace ScholarshipTracker

/-! ### MD5 (the id derivation uses hashlib.md5(...).hexdigest()) -/

/-- Low 32 bits mask, 2^32 - 1. -/
def mask32 : Nat := 4294967295

/-- Rotate a 32-bit word left by `n` bits. -/
def rotl32 (x n : Nat) : Nat :=
  ((x <<< n) ||| (x >>> (32 - n))) &&& mask32

/-- UTF-8 encoding of one Unicode code point, as Python str.encode() produces. -/
def utf8Bytes (n : Nat) : List Nat :=
  if n < 128 then [n]
  else if n < 2048 then [192 ||| (n >>> 6), 128 ||| (n &&& 63)]
  else if n < 65536 then
    [224 ||| (n >>> 12), 128 ||| ((n >>> 6) &&& 63), 128 ||| (n &&& 63)]
  else
    [240 ||| (n >>> 18), 128 ||| ((n >>> 12) &&& 63),
     128 ||| ((n >>> 6) &&& 63), 128 ||| (n &&& 63)]

/-- UTF-8 bytes of a character list. -/
def utf8Chars : List Char → List Nat
  | [] => []
  | c :: rest => utf8Bytes c.toNat ++ utf8Chars rest

/-- UTF-8 bytes of a string (Python `s.encode()`). -/
def strBytes (s : String) : List Nat := utf8Chars s.data

/-- Strict byte-wise comparison of two byte lists: memcmp order, with the
shorter list sorting first when one is a prefix of the other. -/
def bytesLt : List Nat → List Nat → Bool
  | [], [] => false
  | [], _ :: _ => true
  | _ :: _, [] => false
  | a :: as, b :: bs => if a < b then true else if b < a then false else bytesLt as bs

/-- SQLite BINARY collation on two TEXT values: memcmp of their UTF-8 bytes.
This is the order SQLite uses for the `timestamp > datetime(now, -7 days)`
comparison, since both operands are TEXT. -/
def sqliteTextLt (s t : String) : Bool := bytesLt (strBytes s) (strBytes t)

/-- MD5 round constants, floor(abs(sin(i+1)) * 2^32) for i = 0..63. -/
def md5K : List Nat :=
  [0xd76aa478, 0xe8c7b756, 0x242070db, 0xc1bdceee,
   0xf57c0faf, 0x4787c62a, 0xa8304613, 0xfd469501,
   0x698098d8, 0x8b44f7af, 0xffff5bb1, 0x895cd7be,
   0x6b901122, 0xfd987193, 0xa679438e, 0x49b40821,
   0xf61e2562, 0xc040b340, 0x265e5a51, 0xe9b6c7aa,
   0xd62f105d, 0x02441453, 0xd8a1e681, 0xe7d3fbc8,
   0x21e1cde6, 0xc33707d6, 0xf4d50d87, 0x455a14ed,
   0xa9e3e905, 0xfcefa3f8, 0x676f02d9, 0x8d2a4c8a,
   0xfffa3942, 0x8771f681, 0x6d9d6122, 0xfde5380c,
   0xa4beea44, 0x4bdecfa9, 0xf6bb4b60, 0xbebfbc70,
   0x289b7ec6, 0xeaa127fa, 0xd4ef3085, 0x04881d05,
   0xd9d4d039, 0xe6db99e5, 0x1fa27cf8, 0xc4ac5665,
   0xf4292244, 0x432aff97, 0xab9423a7, 0xfc93a039,
   0x655b59c3, 0x8f0ccc92, 0xffeff47d, 0x85845dd1,
   0x6fa87e4f, 0xfe2ce6e0, 0xa3014314, 0x4e0811a1,
   0xf7537e82, 0xbd3af235, 0x2ad7d2bb, 0xeb86d391]

/-- MD5 per-round left-rotation amounts. -/
def md5S : List Nat :=
  [7, 12, 17, 22, 7, 12, 17, 22, 7, 12, 17, 22, 7, 12, 17, 22,
   5, 9, 14, 20, 5, 9, 14, 20, 5, 9, 14, 20, 5, 9, 14, 20,
   4, 11, 16, 23, 4, 11, 16, 23, 4, 11, 16, 23, 4, 11, 16, 23,
   6, 10, 15, 21, 6, 10, 15, 21, 6, 10, 15, 21, 6, 10, 15, 21]

/-- MD5 padding: append 0x80, zero bytes to 56 mod 64, then the original
bit length as 8 little-endian bytes. -/
def md5Pad (msg : List Nat) : List Nat :=
  let len := msg.length
  let bl := (len * 8) % (2 ^ 64)
  msg ++ [128] ++ List.replicate ((119 - len % 64) % 64) 0 ++
    [bl &&& 255, (bl >>> 8) &&& 255, (bl >>> 16) &&& 255, (bl >>> 24) &&& 255,
     (bl >>> 32) &&& 255, (bl >>> 40) &&& 255, (bl >>> 48) &&& 255, (bl >>> 56) &&& 255]

/-- Group bytes into little-endian 32-bit words. -/
def toWords : List Nat → List Nat
  | b0 :: b1 :: b2 :: b3 :: rest =>
      (b0 ||| (b1 <<< 8) ||| (b2 <<< 16) ||| (b3 <<< 24)) :: toWords rest
  | _ => []

/-- Split a byte list into 64-byte chunks; fuel-driven structural recursion
(the fuel `n` bounds the number of chunks, one byte of input per unit suffices). -/
def md5ChunksAux : Nat → List Nat → List (List Nat)
  | 0, _ => []
  | _ + 1, [] => []
  | n + 1, l => l.take 64 :: md5ChunksAux n (l.drop 64)

/-- Split a byte list into 64-byte chunks. -/
def md5Chunks (l : List Nat) : List (List Nat) := md5ChunksAux l.length l

/-- Running state of the MD5 compression function, four 32-bit words. -/
structure MD5State where
  a : Nat
  b : Nat
  c : Nat
  d : Nat
deriving DecidableEq, Repr

/-- MD5 initial state. -/
def md5Init : MD5State := ⟨0x67452301, 0xefcdab89, 0x98badcfe, 0x10325476⟩

/-- MD5 round mixing function: F, G, H, I by round quarter. -/
def md5F (i b c d : Nat) : Nat :=
  if i < 16 then (b &&& c) ||| ((b ^^^ mask32) &&& d)
  else if i < 32 then (d &&& b) ||| ((d ^^^ mask32) &&& c)
  else if i < 48 then b ^^^ c ^^^ d
  else c ^^^ (b ||| (d ^^^ mask32))

/-- MD5 message-word index for round `i`. -/
def md5G (i : Nat) : Nat :=
  if i < 16 then i
  else if i < 32 then (5 * i + 1) % 16
  else if i < 48 then (3 * i + 5) % 16
  else (7 * i) % 16

/-- One MD5 round on message words `m`. -/
def md5Step (m : List Nat) (st : MD5State) (i : Nat) : MD5State :=
  let f := (md5F i st.b st.c st.d + st.a + md5K.getD i 0 + m.getD (md5G i) 0) &&& mask32
  ⟨st.d, (st.b + rotl32 f (md5S.getD i 0)) &&& mask32, st.b, st.c⟩

/-- Process one 64-byte chunk. -/
def md5ProcessChunk (st : MD5State) (chunk : List Nat) : MD5State :=
  let m := toWords chunk
  let r := (List.range 64).foldl (md5Step m) st
  ⟨(st.a + r.a) &&& mask32, (st.b + r.b) &&& mask32,
   (st.c + r.c) &&& mask32, (st.d + r.d) &&& mask32⟩

/-- MD5 of a byte list: pad, then fold the compression function. -/
def md5Core (msg : List Nat) : MD5State :=
  (md5Chunks (md5Pad msg)).foldl md5ProcessChunk md5Init

/-- Hexadecimal digit character (lowercase, as hexdigest produces). -/
def hexDigit (n : Nat) : Char :=
  if n < 10 then Char.ofNat (48 + n) else Char.ofNat (87 + n)

/-- Lowercase hex of a byte list, two digits per byte. -/
def bytesToHex : List Nat → List Char
  | [] => []
  | b :: rest => hexDigit (b >>> 4) :: hexDigit (b &&& 15) :: bytesToHex rest

/-- Little-endian bytes of a 32-bit word. -/
def wordLEBytes (w : Nat) : List Nat :=
  [w &&& 255, (w >>> 8) &&& 255, (w >>> 16) &&& 255, (w >>> 24) &&& 255]

/-- MD5 hex digest of a string, as Python hashlib.md5(s.encode()).hexdigest(). -/
def md5Hex (s : String) : String :=
  let st := md5Core (strBytes s)
  String.mk (bytesToHex
    (wordLEBytes st.a ++ wordLEBytes st.b ++ wordLEBytes st.c ++ wordLEBytes st.d))

/-! ### Data model and the Database operations -/

/-- Fields of the ScholarshipData class: title, description, source, url,
amount, deadline (both optional), plus the timestamp set at construction:
datetime.now().isoformat(), a local-time TEXT value with a `T` separator
such as `2025-01-08T03:00:00.123456`. -/
structure ScholarshipData where
  title : String
  description : String
  source : String
  url : String
  amount : Option String
  deadline : Option String
  timestamp : String
deriving DecidableEq, Repr

/-- Row of the scholarships table created by Database.create_tables:
(id TEXT PRIMARY KEY, title, description, source, url, amount, deadline,
timestamp, sent_in_email BOOLEAN DEFAULT FALSE). The timestamp column is
declared DATETIME (NUMERIC affinity), but the bound isoformat string is not
a numeric literal, so it is stored and compared as TEXT. -/
structure Row where
  id : String
  title : String
  description : String
  source : String
  url : String
  amount : Option String
  deadline : Option String
  timestamp : String
  sent_in_email : Bool
deriving DecidableEq, Repr

/-- Id derivation inside Database.add_scholarship:
hashlib.md5(f-string of title then source, encoded).hexdigest() — the MD5 hex
digest of the unseparated concatenation title ++ source. -/
def fingerprint (title source : String) : String := md5Hex (title ++ source)

/-- Row that Database.add_scholarship writes for a scholarship: the eight
listed columns take the given values; `sent_in_email` is NOT in the INSERT
column list, so it takes the column DEFAULT FALSE. -/
def storedRow (s : ScholarshipData) : Row :=
  { id := fingerprint s.title s.source
    title := s.title
    description := s.description
    source := s.source
    url := s.url
    amount := s.amount
    deadline := s.deadline
    timestamp := s.timestamp
    sent_in_email := false }

/-- Database.add_scholarship: `INSERT OR REPLACE INTO scholarships (id, title,
description, source, url, amount, deadline, timestamp) VALUES (...)`.
SQLite `INSERT OR REPLACE` deletes any row violating the PRIMARY KEY
constraint (same id) and inserts the new row; columns absent from the column
list — here `sent_in_email` — take their declared DEFAULT. -/
def add_scholarship (db : List Row) (s : ScholarshipData) : List Row :=
  db.filter (fun r => r.id != fingerprint s.title s.source) ++ [storedRow s]

/-- Database.mark_as_sent: executemany of
`UPDATE scholarships SET sent_in_email = TRUE WHERE id = ?` over the given
ids. A row is updated iff its id occurs among the ids; ids matching no row
update nothing and raise nothing. -/
def mark_as_sent (db : List Row) (ids : List String) : List Row :=
  db.map (fun r => if r.id ∈ ids then { r with sent_in_email := true } else r)

/-- Database.get_unsent_scholarships: `SELECT * FROM scholarships WHERE
sent_in_email = FALSE AND timestamp > datetime(now, -7 days)`. The
`cutoff` argument is the TEXT value of `datetime(now, -7 days)`: a UTC
string in the form `YYYY-MM-DD HH:MM:SS` with a space separator. The `>` is
SQLite BINARY collation on TEXT — a memcmp — because the stored timestamps
are isoformat TEXT; since those use a `T` (0x54) where the cutoff has a
space (0x20), a stored timestamp whose date prefix equals the cutoff date
always compares greater, making the selection date-granular. -/
def get_unsent_scholarships (db : List Row) (cutoff : String) : List Row :=
  db.filter (fun r => !r.sent_in_email && sqliteTextLt cutoff r.timestamp)

/-- State-passing form of get_unsent_scholarships: the SELECT leaves the
database state unchanged and returns the selected rows. -/
def get_unsent_st (db : List Row) (cutoff : String) : List Row × List Row :=
  (db, get_unsent_scholarships db cutoff)

/-! ### Configuration checks and run control flow -/

/-- Environment variables read at module initialization and by
validate_email_config; os.getenv returns None when a variable is absent. -/
structure Env where
  google_api_key : Option String
  email_address : Option String
  email_password : Option String
  recipient_email : Option String
deriving DecidableEq, Repr

/-- Python truthiness of an os.getenv result: None and the empty string are
falsy, every other string is truthy. -/
def truthyStr : Option String → Bool
  | none => false
  | some s => s != ""

/-- Module-level configuration checks (lines 50-61): `if not GOOGLE_API_KEY:
raise ValueError(...)` then `if not all([EMAIL_ADDRESS, EMAIL_PASSWORD,
RECIPIENT_EMAIL]): raise ValueError(...)`; a raise at module level stops the
program before any run logic executes. -/
def moduleInit (env : Env) : Except String Unit :=
  if !truthyStr env.google_api_key then
    Except.error "GOOGLE_API_KEY not found in environment variables"
  else if !(truthyStr env.email_address && truthyStr env.email_password
              && truthyStr env.recipient_email) then
    Except.error "Email configuration incomplete in environment variables"
  else Except.ok ()

/-- Severity of a logging call in the source. -/
inductive LogLevel where
  | info
  | warning
  | error
deriving DecidableEq, Repr

/-- One logging call: its level and message. -/
structure LogEntry where
  level : LogLevel
  msg : String
deriving DecidableEq, Repr

/-- Outcome of the body of the try-block in a fetch function: the network,
parsing or API code either raises an exception carrying message `e`, or
produces a list of scholarships. The body performs network I/O and is
modelled by this outcome parameter; the except-handler around it is embedded
exactly. -/
inductive FetchOutcome where
  | raises (e : String)
  | returns (items : List ScholarshipData)
deriving DecidableEq, Repr

/-- Exception handling of fetch_scholarship_data: the whole body is wrapped
in `try ... except Exception as e`, which logs via logging.error and returns
the empty list; on success it logs via logging.info and returns the items. -/
def fetch_scholarship_data (source_name : String) (outcome : FetchOutcome) :
    List ScholarshipData × List LogEntry :=
  match outcome with
  | FetchOutcome.raises e =>
      ([], [⟨LogLevel.error, "Error fetching data from " ++ source_name ++ ": " ++ e⟩])
  | FetchOutcome.returns items =>
      (items, [⟨LogLevel.info, "Successfully fetched " ++ toString items.length
                  ++ " scholarships from " ++ source_name⟩])

/-- Exception handling of fetch_buddy4study_scholarships: same shape —
`except Exception` logs via logging.error and returns the empty list. -/
def fetch_buddy4study_scholarships (outcome : FetchOutcome) :
    List ScholarshipData × List LogEntry :=
  match outcome with
  | FetchOutcome.raises e =>
      ([], [⟨LogLevel.error, "Error fetching from Buddy4Study API: " ++ e⟩])
  | FetchOutcome.returns items => (items, [])

/-- Outcome of the Gemini API call inside process_with_gemini: either the
model returns text, or the call raises (network failure, quota, etc.). -/
inductive FormatterOutcome where
  | success (text : String)
  | failure (e : String)
deriving DecidableEq, Repr

/-- Error sentinel string returned by the except-branch of
process_with_gemini. As a non-empty Python string it is truthy. -/
def geminiSentinel : String :=
  "Error processing scholarship data. Please check the log for details."

/-- Control flow of process_with_gemini: on success return response.text; on
any exception, log via logging.error and return the sentinel string. -/
def process_with_gemini (o : FormatterOutcome) : String :=
  match o with
  | FormatterOutcome.success t => t
  | FormatterOutcome.failure _ => geminiSentinel

/-- Constant print_style block of enhance_scholarship_content (abridged: the
source holds a literal CSS block; its exact text is irrelevant to the
properties proved, only its position around the content matters). -/
def print_style : String := "<style>media print rules</style>"

/-- Constant social_buttons block of enhance_scholarship_content (abridged,
as for print_style). -/
def social_buttons : String := "<div>share buttons</div>"

/-- Constant deadline_script block of enhance_scholarship_content (abridged,
as for print_style). -/
def deadline_script : String := "<div>deadline countdown</div>"

/-- enhance_scholarship_content: wraps the content between the three constant
blocks, `print_style NL content NL social_buttons NL deadline_script`; the
body is total string formatting, the except-branch is unreachable. -/
def enhance_scholarship_content (content : String) : String :=
  print_style ++ "\n" ++ content ++ "\n" ++ social_buttons ++ "\n" ++ deadline_script

/-- validate_email_config: for each of EMAIL_ADDRESS and RECIPIENT_EMAIL (and
only these two), append a message when the variable is falsy; returns the
issue list. -/
def validate_email_config (env : Env) : List String :=
  (if !truthyStr env.email_address
   then ["Missing EMAIL_ADDRESS in environment configuration"] else []) ++
  (if !truthyStr env.recipient_email
   then ["Missing RECIPIENT_EMAIL in environment configuration"] else [])

/-- Inputs that determine one run of main: the environment, the catalog
returned by get_available_scholarships (the static AVAILABLE_SCHOLARSHIPS
list, which has seven entries), and the outcome of the Gemini call. -/
structure MainInputs where
  env : Env
  catalog : List ScholarshipData
  formatter : FormatterOutcome
deriving DecidableEq, Repr

/-- Send decision of main (lines 765-803): abort on validate_email_config
issues; abort when the catalog is empty; compute
content := process_with_gemini(...); abort when `not content` (content is
the empty string); otherwise call send_email with
enhance_scholarship_content(content). The result is the argument passed to
send_email, or none when send_email is not invoked. -/
def mainEmailPayload (inp : MainInputs) : Option String :=
  if validate_email_config inp.env != [] then none
  else if inp.catalog.isEmpty then none
  else
    let content := process_with_gemini inp.formatter
    if content == "" then none
    else some (enhance_scholarship_content content)

/-- Convenience row constructor for concrete examples: id, timestamp and sent
flag vary, the text fields are fixed placeholders. -/
def mkRow (id : String) (timestamp : String) (sent : Bool) : Row :=
  { id := id, title := "t", description := "d", source := "s", url := "u",
    amount := none, deadline := none, timestamp := timestamp,
    sent_in_email := sent }

/-! ### Validation of the MD5 embedding against standard test vectors -/

set_option maxRecDepth 10000 in
example : md5Hex "" = "d41d8cd98f00b204e9800998ecf8427e" := by decide

set_option maxRecDepth 10000 in
example : md5Hex "abc" = "900150983cd24fb0d6963f7d28e17f72" := by decide

/-! ### Helper lemmas -/

/-- Filtering away the rows with id `x` and then keeping only the rows with
id `x` yields the empty list. -/
theorem filter_ne_filter_eq_nil (l : List Row) (x : String) :
    (l.filter (fun r => r.id != x)).filter (fun r => r.id == x) = [] := by
  induction l with
  | nil => rfl
  | cons r rest ih =>
      by_cases h : r.id = x
      · simp [List.filter_cons, h, ih]
      · simp [List.filter_cons, h, ih]

/-- UTF-8 encoding distributes over concatenation of character lists. -/
theorem utf8Chars_append (l₁ l₂ : List Char) :
    utf8Chars (l₁ ++ l₂) = utf8Chars l₁ ++ utf8Chars l₂ := by
  induction l₁ with
  | nil => rfl
  | cons c rest ih => simp [utf8Chars, ih]

/-- UTF-8 encoding distributes over string concatenation. -/
theorem strBytes_append (s t : String) :
    strBytes (s ++ t) = strBytes s ++ strBytes t := by
  unfold strBytes
  rw [String.data_append, utf8Chars_append]

/-- Comparing `date ++ space-byte ++ time` against `date ++ T-byte ++ time`
under memcmp is decided entirely by the equal-length date prefixes: the
result is true unless the second date is strictly below the first, because
on equal dates the separators decide and 0x20 < 0x54. The time parts are
irrelevant. -/
theorem bytesLt_sep (dc : List Nat) :
    ∀ (dr tc tr : List Nat), dc.length = dr.length →
    bytesLt (dc ++ 32 :: tc) (dr ++ 84 :: tr) = !bytesLt dr dc := by
  induction dc with
  | nil =>
      intro dr tc tr h
      cases dr with
      | nil => simp [bytesLt]
      | cons b bs => simp at h
  | cons a as ih =>
      intro dr tc tr h
      cases dr with
      | nil => simp at h
      | cons b bs =>
          simp only [List.cons_append, bytesLt]
          by_cases h1 : a < b
          · simp [h1, Nat.lt_asymm h1]
          · by_cases h2 : b < a
            · simp [h1, h2]
            · have hab : a = b := Nat.le_antisymm (Nat.le_of_not_lt h2) (Nat.le_of_not_lt h1)
              subst hab
              simp only [List.length_cons, Nat.succ.injEq] at h
              simp [h1, h2, ih bs tc tr h]

/-- Rows whose id is not among the updated ids pass through mark_as_sent
unchanged, so they stay members of the table. -/
theorem mem_mark_as_sent_of_not_mem (db : List Row) (ids : List String) (r : Row)
    (hr : r ∈ db) (hid : r.id ∉ ids) : r ∈ mark_as_sent db ids := by
  unfold mark_as_sent
  refine List.mem_map.mpr ⟨r, hr, ?_⟩
  simp [hid]

/-! ### Claim theorems -/

/-- C1: the claim states that the sent flag never reverts to false under any
sequence of add_scholarship and mark_as_sent calls. The code violates it:
after add_scholarship, mark_as_sent on the derived id sets the flag true, but
a re-ingest of the same record via add_scholarship uses SQLite INSERT OR
REPLACE without the sent_in_email column, so the replacing row takes the
column DEFAULT FALSE — the flag reverts. This theorem evaluates the code on
that failing sequence: after add, mark, add the single stored row has
sent_in_email = false again. -/
theorem C1_sent_flag_reverts (s : ScholarshipData) :
    mark_as_sent (add_scholarship [] s) [fingerprint s.title s.source] =
      [{ storedRow s with sent_in_email := true }] ∧
    add_scholarship
        (mark_as_sent (add_scholarship [] s) [fingerprint s.title s.source]) s =
      [storedRow s] ∧
    (storedRow s).sent_in_email = false := by
  refine ⟨?_, ?_, rfl⟩
  · simp [mark_as_sent, add_scholarship, storedRow]
  · simp [mark_as_sent, add_scholarship, storedRow]

/-- C2: the claim states that when the Gemini step fails, send_email is not
invoked with the failure output. The code violates it: process_with_gemini
returns the non-empty sentinel string on failure, the guard `if not content`
in main does not fire on a non-empty string, and send_email is called with
the enhanced sentinel as payload. Concrete run: valid configuration, a
one-entry catalog, formatter failure. -/
theorem C2_sentinel_gets_emailed :
    mainEmailPayload
      ⟨⟨some "key", some "addr", some "pw", some "rcpt"⟩,
        [⟨"T", "D", "S", "U", none, none, "2025-01-01T00:00:00"⟩],
        FormatterOutcome.failure "network down"⟩ =
      some (enhance_scholarship_content geminiSentinel) ∧
    geminiSentinel ≠ "" := by
  exact ⟨rfl, by decide⟩

/-- C3 counterexample: the claim describes selection by the closed interval
from now minus 7 days to now, so observedAt instants before now minus 7 days
or after now must be excluded. Take now (UTC) = 2025-01-15 10:30:00, so the
cutoff text is 2025-01-08 10:30:00. A record observed at 03:00:00 on
2025-01-08 — seven and a half hours BEFORE now minus 7 days, hence outside
the claimed interval — is stored as 2025-01-08T03:00:00 and is returned,
because the date prefixes tie and the `T` byte exceeds the space byte; the
space-normalized conjuncts certify that its instant precedes the cutoff.
A record dated 2025-01-16, after now, is returned as well, since the WHERE
clause has no upper bound. -/
theorem C3_window_claim_refuted :
    (get_unsent_scholarships [mkRow "x" "2025-01-08T03:00:00" false]
        "2025-01-08 10:30:00" = [mkRow "x" "2025-01-08T03:00:00" false] ∧
      sqliteTextLt "2025-01-08 03:00:00" "2025-01-08 10:30:00" = true) ∧
    (get_unsent_scholarships [mkRow "z" "2025-01-16T00:00:00" false]
        "2025-01-08 10:30:00" = [mkRow "z" "2025-01-16T00:00:00" false] ∧
      sqliteTextLt "2025-01-15 10:30:00" "2025-01-16 00:00:00" = true) := by
  decide

/-- C3 amended: get_unsent_scholarships returns exactly the rows with
sent_in_email = false whose stored timestamp TEXT compares greater than the
cutoff TEXT under SQLite BINARY collation (memcmp of UTF-8 bytes); because
the stored local-time isoformat uses a `T` separator where the UTC cutoff
uses a space, the comparison is decided by the date prefixes alone — for
equal-length date prefixes the row is selected unless its date is strictly
below the cutoff date, whatever the time parts are — so the effective window
is date-granular (the whole cutoff calendar day is included, with local/UTC
clock skew) and has no upper bound. The examples survive: a record dated
eight days before now is excluded, one dated six days before now is
included, and the membership characterization forces sent = false, so no
sent row is ever returned. -/
theorem C3_selection_date_granular :
    (∀ (db : List Row) (cutoff : String) (r : Row),
      r ∈ get_unsent_scholarships db cutoff ↔
        r ∈ db ∧ r.sent_in_email = false ∧ sqliteTextLt cutoff r.timestamp = true) ∧
    (∀ dc dr tc tr : String, (strBytes dc).length = (strBytes dr).length →
      sqliteTextLt (dc ++ " " ++ tc) (dr ++ "T" ++ tr) =
        !bytesLt (strBytes dr) (strBytes dc)) ∧
    get_unsent_scholarships [mkRow "w" "2025-01-08T00:00:01" false]
      "2025-01-08 23:59:59" = [mkRow "w" "2025-01-08T00:00:01" false] ∧
    get_unsent_scholarships [mkRow "x" "2025-01-07T10:30:00" false]
      "2025-01-08 10:30:00" = [] ∧
    get_unsent_scholarships [mkRow "y" "2025-01-09T10:30:00" false]
      "2025-01-08 10:30:00" = [mkRow "y" "2025-01-09T10:30:00" false] := by
  refine ⟨?_, ?_, by decide, by decide, by decide⟩
  · intro db cutoff r
    simp [get_unsent_scholarships, List.mem_filter]
  · intro dc dr tc tr h
    unfold sqliteTextLt
    simp only [strBytes_append]
    have hs : strBytes " " = [32] := rfl
    have ht : strBytes "T" = [84] := rfl
    rw [hs, ht, List.append_assoc, List.append_assoc]
    exact bytesLt_sep (strBytes dc) (strBytes dr) (strBytes tc) (strBytes tr) h

/-- C3 witness for the amended theorem: the date-granularity conjunct applied
at equal date prefixes 2025-01-08 with a cutoff time far later in the day
than the row time; the length hypothesis is discharged by decide and the
result evaluates to true — the boundary-day row is selected regardless of
its time. -/
theorem C3_selection_date_granular_witness :
    sqliteTextLt ("2025-01-08" ++ " " ++ "10:30:00") ("2025-01-08" ++ "T" ++ "03:00:00") =
      !bytesLt (strBytes "2025-01-08") (strBytes "2025-01-08") :=
  C3_selection_date_granular.2.1 "2025-01-08" "2025-01-08" "10:30:00" "03:00:00"
    (by decide)

/-- C4: upserting twice with the same derived id leaves exactly one row for
that id, carrying the fields of the second call (first conjunct: the rows
with that id after the two calls are exactly the single row built from the
second record); add_scholarship is a total function, so overwriting raises
no error; and the id column stays unique: one upsert preserves uniqueness
of the mapped ids, and any sequence of upserts starting from the empty
store yields a store with pairwise distinct ids. -/
theorem C4_upsert_idempotent :
    (∀ (db : List Row) (s₁ s₂ : ScholarshipData),
      fingerprint s₁.title s₁.source = fingerprint s₂.title s₂.source →
      (add_scholarship (add_scholarship db s₁) s₂).filter
          (fun r => r.id == fingerprint s₂.title s₂.source) = [storedRow s₂]) ∧
    (∀ (db : List Row) (s : ScholarshipData),
      (db.map Row.id).Nodup → ((add_scholarship db s).map Row.id).Nodup) ∧
    (∀ ss : List ScholarshipData,
      ((ss.foldl add_scholarship []).map Row.id).Nodup) := by
  have pres : ∀ (db : List Row) (s : ScholarshipData),
      (db.map Row.id).Nodup → ((add_scholarship db s).map Row.id).Nodup := by
    intro db s h
    rw [add_scholarship, List.map_append]
    refine List.Nodup.append ?_ (List.nodup_singleton _) ?_
    · exact h.sublist (List.Sublist.map _ (List.filter_sublist _))
    · intro a ha hb
      rcases List.mem_map.mp ha with ⟨r, hr, rfl⟩
      have hne := List.of_mem_filter hr
      simp only [bne_iff_ne, ne_eq] at hne
      simp only [List.map_cons, List.map_nil, List.mem_singleton, storedRow] at hb
      exact hne hb
  refine ⟨?_, pres, ?_⟩
  · intro db s₁ s₂ hfp
    have e1 := filter_ne_filter_eq_nil
      (db.filter (fun r => r.id != fingerprint s₁.title s₁.source))
      (fingerprint s₂.title s₂.source)
    have e2 : ([storedRow s₁].filter
        (fun r => r.id != fingerprint s₂.title s₂.source)) = [] := by
      simp [storedRow, hfp]
    have e3 : ([storedRow s₂].filter
        (fun r => r.id == fingerprint s₂.title s₂.source)) = [storedRow s₂] := by
      simp [storedRow]
    simp only [add_scholarship, List.filter_append]
    rw [e2, e1, e3]
    simp
  · have seq : ∀ (ss : List ScholarshipData) (db : List Row),
        (db.map Row.id).Nodup → ((ss.foldl add_scholarship db).map Row.id).Nodup := by
      intro ss
      induction ss with
      | nil => intro db h; simpa using h
      | cons a t ih => intro db h; exact ih _ (pres _ _ h)
    intro ss
    exact seq ss [] (by simp)

/-- C4 witness: the theorem instantiated at the empty store and a concrete
record upserted twice (second call with changed fields), the fingerprint
hypothesis discharged by rfl and the uniqueness hypothesis on the empty
store by simp. -/
theorem C4_upsert_idempotent_witness :
    (add_scholarship
        (add_scholarship [] ⟨"T", "D1", "S", "U1", none, none, "2025-01-01T00:00:00"⟩)
        ⟨"T", "D2", "S", "U2", some "amt", none, "2025-01-02T00:00:00"⟩).filter
        (fun r => r.id == fingerprint "T" "S") =
      [storedRow ⟨"T", "D2", "S", "U2", some "amt", none, "2025-01-02T00:00:00"⟩] ∧
    ((add_scholarship []
        ⟨"T", "D1", "S", "U1", none, none, "2025-01-01T00:00:00"⟩).map Row.id).Nodup :=
  ⟨C4_upsert_idempotent.1 [] ⟨"T", "D1", "S", "U1", none, none, "2025-01-01T00:00:00"⟩
      ⟨"T", "D2", "S", "U2", some "amt", none, "2025-01-02T00:00:00"⟩ rfl,
   C4_upsert_idempotent.2.1 []
      ⟨"T", "D1", "S", "U1", none, none, "2025-01-01T00:00:00"⟩ (by simp)⟩

/-- C5: the id derivation inside add_scholarship is pure and deterministic:
equal title and source strings give equal fingerprints, and the row written
by add_scholarship (its last element, id included) is a function of the
scholarship alone, independent of the store state it is applied to. -/
theorem C5_fingerprint_deterministic :
    (∀ t₁ s₁ t₂ s₂ : String, t₁ = t₂ → s₁ = s₂ →
      fingerprint t₁ s₁ = fingerprint t₂ s₂) ∧
    (∀ (db₁ db₂ : List Row) (s : ScholarshipData),
      (add_scholarship db₁ s).getLast? = (add_scholarship db₂ s).getLast? ∧
      (add_scholarship db₁ s).getLast? = some (storedRow s)) := by
  constructor
  · intro t₁ s₁ t₂ s₂ ht hs
    rw [ht, hs]
  · intro db₁ db₂ s
    constructor <;> simp [add_scholarship]

/-- C5 witness: the determinism conjunct applied at a concrete pair, and the
state-independence conjunct applied at two different concrete stores. -/
theorem C5_fingerprint_deterministic_witness :
    fingerprint "AICTE PG Scholarship" "AICTE" =
      fingerprint "AICTE PG Scholarship" "AICTE" ∧
    (add_scholarship [] ⟨"T", "D", "S", "U", none, none, "2025-01-01T00:00:00"⟩).getLast? =
      (add_scholarship [mkRow "other" "2025-01-03T00:00:00" true]
        ⟨"T", "D", "S", "U", none, none, "2025-01-01T00:00:00"⟩).getLast? :=
  ⟨C5_fingerprint_deterministic.1 _ _ _ _ rfl rfl,
   (C5_fingerprint_deterministic.2 [] [mkRow "other" "2025-01-03T00:00:00" true]
      ⟨"T", "D", "S", "U", none, none, "2025-01-01T00:00:00"⟩).1⟩

/-- C6: mark_as_sent keeps the table the same length; a row whose id is among
the given ids has exactly its sent_in_email flag set true; a row whose id is
not among them is unchanged; ids matching no row update nothing, and the
operation is a total function, so unmatched ids raise no error. -/
theorem C6_mark_as_sent_per_row (db : List Row) (ids : List String) :
    (mark_as_sent db ids).length = db.length ∧
    ∀ (i : Nat) (h₁ : i < db.length) (h₂ : i < (mark_as_sent db ids).length),
      ((db.get ⟨i, h₁⟩).id ∈ ids →
        (mark_as_sent db ids).get ⟨i, h₂⟩ =
          { db.get ⟨i, h₁⟩ with sent_in_email := true }) ∧
      ((db.get ⟨i, h₁⟩).id ∉ ids →
        (mark_as_sent db ids).get ⟨i, h₂⟩ = db.get ⟨i, h₁⟩) := by
  refine ⟨by simp [mark_as_sent], ?_⟩
  intro i h₁ h₂
  simp only [List.get_eq_getElem, mark_as_sent, List.getElem_map]
  constructor
  · intro hmem
    simp [hmem]
  · intro hmem
    simp [hmem]

/-- C6 witness: a two-row table and the id set containing the first row id
plus an id matching no row; the matched row gets sent_in_email = true, the
other row is unchanged, the length is preserved, and the unmatched id is
silently ignored. -/
theorem C6_mark_as_sent_per_row_witness :
    (mark_as_sent [mkRow "a" "2025-01-01T00:00:00" false,
        mkRow "b" "2025-01-01T00:00:00" false] ["a", "zzz"]).length =
      ([mkRow "a" "2025-01-01T00:00:00" false,
        mkRow "b" "2025-01-01T00:00:00" false] : List Row).length ∧
    (mark_as_sent [mkRow "a" "2025-01-01T00:00:00" false,
        mkRow "b" "2025-01-01T00:00:00" false] ["a", "zzz"]).get
        ⟨0, by decide⟩ =
      { ([mkRow "a" "2025-01-01T00:00:00" false,
          mkRow "b" "2025-01-01T00:00:00" false] : List Row).get ⟨0, by decide⟩
          with sent_in_email := true } ∧
    (mark_as_sent [mkRow "a" "2025-01-01T00:00:00" false,
        mkRow "b" "2025-01-01T00:00:00" false] ["a", "zzz"]).get
        ⟨1, by decide⟩ =
      ([mkRow "a" "2025-01-01T00:00:00" false,
        mkRow "b" "2025-01-01T00:00:00" false] : List Row).get ⟨1, by decide⟩ :=
  ⟨(C6_mark_as_sent_per_row [mkRow "a" "2025-01-01T00:00:00" false,
      mkRow "b" "2025-01-01T00:00:00" false] ["a", "zzz"]).1,
   ((C6_mark_as_sent_per_row [mkRow "a" "2025-01-01T00:00:00" false,
      mkRow "b" "2025-01-01T00:00:00" false]
      ["a", "zzz"]).2 0 (by decide) (by decide)).1 (by decide),
   ((C6_mark_as_sent_per_row [mkRow "a" "2025-01-01T00:00:00" false,
      mkRow "b" "2025-01-01T00:00:00" false]
      ["a", "zzz"]).2 1 (by decide) (by decide)).2 (by decide)⟩

/-- C7: get_unsent_scholarships is a pure read — in state-passing form the
store after the call equals the store before — and consequently a record it
returns, whose id is never passed to mark_as_sent, is returned again by a
subsequent call whose cutoff text still compares below its stored timestamp,
even if other ids were marked sent in between. -/
theorem C7_collect_pure_at_least_once
    (db : List Row) (cutoff cutoff₂ : String) (ids : List String) (r : Row) :
    (get_unsent_st db cutoff).1 = db ∧
    (r ∈ (get_unsent_st db cutoff).2 →
      sqliteTextLt cutoff₂ r.timestamp = true →
      r.id ∉ ids →
      r ∈ (get_unsent_st (mark_as_sent (get_unsent_st db cutoff).1 ids) cutoff₂).2) := by
  refine ⟨rfl, ?_⟩
  intro hmem hwin hid
  have hdb : r ∈ db ∧ (!r.sent_in_email && sqliteTextLt cutoff r.timestamp) = true :=
    List.mem_filter.mp hmem
  have h2 := hdb.2
  simp at h2
  refine List.mem_filter.mpr ⟨mem_mark_as_sent_of_not_mem db ids r hdb.1 hid, ?_⟩
  simp [h2.1, hwin]

/-- C7 witness: a one-row store collected with the cutoff one week before a
January 5 timestamp; the row id is not among the marked ids, a later cutoff
one day on still compares below its timestamp, and the row is returned again
by the second collect. -/
theorem C7_collect_pure_at_least_once_witness :
    (get_unsent_st [mkRow "a" "2025-01-05T00:00:00" false] "2024-12-29 00:00:00").1 =
      [mkRow "a" "2025-01-05T00:00:00" false] ∧
    mkRow "a" "2025-01-05T00:00:00" false ∈
      (get_unsent_st
        (mark_as_sent
          (get_unsent_st [mkRow "a" "2025-01-05T00:00:00" false]
            "2024-12-29 00:00:00").1 ["b"])
        "2024-12-30 00:00:00").2 :=
  ⟨(C7_collect_pure_at_least_once [mkRow "a" "2025-01-05T00:00:00" false]
      "2024-12-29 00:00:00" "2024-12-30 00:00:00" ["b"]
      (mkRow "a" "2025-01-05T00:00:00" false)).1,
   (C7_collect_pure_at_least_once [mkRow "a" "2025-01-05T00:00:00" false]
      "2024-12-29 00:00:00" "2024-12-30 00:00:00" ["b"]
      (mkRow "a" "2025-01-05T00:00:00" false)).2 (by decide) (by decide) (by decide)⟩

/-- C8: when any of the four required environment variables is absent
(os.getenv returns None), the module-level checks raise: moduleInit returns
an error, so the program stops before any run logic and never continues in a
degraded mode. -/
theorem C8_missing_config_fatal (env : Env)
    (h : env.google_api_key = none ∨ env.email_address = none ∨
         env.email_password = none ∨ env.recipient_email = none) :
    ∃ msg, moduleInit env = Except.error msg := by
  have tnone : truthyStr none = false := rfl
  by_cases hg : truthyStr env.google_api_key
  · rcases h with h | h | h | h
    · rw [h] at hg
      exact absurd hg (by decide)
    · exact ⟨"Email configuration incomplete in environment variables",
        by simp [moduleInit, hg, h, tnone]⟩
    · exact ⟨"Email configuration incomplete in environment variables",
        by simp [moduleInit, hg, h, tnone]⟩
    · exact ⟨"Email configuration incomplete in environment variables",
        by simp [moduleInit, hg, h, tnone]⟩
  · exact ⟨"GOOGLE_API_KEY not found in environment variables",
      by simp [moduleInit, hg]⟩

/-- C8 witness: the theorem applied to an environment missing only
GOOGLE_API_KEY, the disjunctive hypothesis discharged on its first case. -/
theorem C8_missing_config_fatal_witness :
    ∃ msg, moduleInit ⟨none, some "addr", some "pw", some "rcpt"⟩ =
      Except.error msg :=
  C8_missing_config_fatal ⟨none, some "addr", some "pw", some "rcpt"⟩ (Or.inl rfl)

/-- C9 counterexample: the claim says a failing fetch logs a warning; the
handler logs at error level. At a concrete failing fetch the log consists of
one error-level entry and contains no warning-level entry, while the result
list is empty. -/
theorem C9_failure_logged_at_error_level :
    fetch_scholarship_data "AICTE" (FetchOutcome.raises "timeout") =
      ([], [⟨LogLevel.error, "Error fetching data from AICTE: timeout"⟩]) ∧
    (fetch_scholarship_data "AICTE" (FetchOutcome.raises "timeout")).2.filter
      (fun l => l.level == LogLevel.warning) = [] := by
  exact ⟨rfl, rfl⟩

/-- C9 amended: when the try-block of either fetch function raises any
exception, the handler catches it (both functions are total, nothing
propagates and the run is not aborted), returns the empty list, and logs the
failure at error level. -/
theorem C9_fetch_failure_returns_empty (source_name e : String) :
    fetch_scholarship_data source_name (FetchOutcome.raises e) =
      ([], [⟨LogLevel.error, "Error fetching data from " ++ source_name
              ++ ": " ++ e⟩]) ∧
    fetch_buddy4study_scholarships (FetchOutcome.raises e) =
      ([], [⟨LogLevel.error, "Error fetching from Buddy4Study API: " ++ e⟩]) :=
  ⟨rfl, rfl⟩

/-- C10: two distinct (title, source) pairs whose unseparated concatenations
coincide receive the same fingerprint, and upserting the second record after
the first leaves the store holding only the second record row: the first is
silently replaced. -/
theorem C10_concatenation_collision :
    ("ab", "c") ≠ ("a", "bc") ∧
    fingerprint "ab" "c" = fingerprint "a" "bc" ∧
    add_scholarship (add_scholarship []
          ⟨"ab", "first", "c", "u1", none, none, "2025-01-01T00:00:00"⟩)
        ⟨"a", "second", "bc", "u2", none, none, "2025-01-02T00:00:00"⟩ =
      [storedRow ⟨"a", "second", "bc", "u2", none, none, "2025-01-02T00:00:00"⟩] := by
  have hcat : ("ab" : String) ++ "c" = "a" ++ "bc" := by decide
  have hfp : fingerprint "ab" "c" = fingerprint "a" "bc" := by
    show md5Hex ("ab" ++ "c") = md5Hex ("a" ++ "bc")
    rw [hcat]
  refine ⟨by decide, hfp, ?_⟩
  simp only [add_scholarship, List.filter_nil, List.nil_append,
    List.filter_cons, storedRow]
  simp [hfp]

end ScholarshipTracker
